import Mathlib

/-
Shallow embedding of src/ollama_agent.py.

The repository is a single Python file: three filesystem tools
(read_file_tool, list_files_tool, edit_file_tool plus the helper
_create_new_file) and a synchronous agent loop (Agent.run together with
Agent.run_inference, Agent.execute_tool).

Modelling conventions:
- Python values that flow through the tool input dictionaries are modelled
  by PyVal (strings, integers, None).  dict.get with no default yields
  PyVal.vNone for absent keys, exactly as in Python.
- The filesystem is a state FS: the resolved working directory string,
  a path resolution function modelling Path(s).resolve(), an association
  list from resolved paths to regular-file contents, an association list
  from resolved paths to directory entries, and an ioErr oracle that makes
  open/iterdir on a given resolved path raise (modelling OS-level errors).
- A raised Python exception is Except.error at the outer type of each
  embedded function; a caught exception never reaches that layer.  The
  placement of try/except blocks in the source is mirrored exactly: in
  read_file_tool and list_files_tool the Path(...).resolve() call is inside
  the try block, in edit_file_tool it is before the try block.
- Python str.replace, str.strip, substring membership and str.startswith
  are given executable char-list models (pyReplace, pyStrip, strContains,
  pyStartsWith).
-/

namespace OllamaAgent

/-- Values of tool-input dictionaries: Python str, int or None. -/
inductive PyVal where
  | vStr (s : String)
  | vInt (n : Int)
  | vNone
  deriving DecidableEq, Repr

/-- A Python dict with string keys, as passed to the tools. -/
abbrev PyDict := List (String × PyVal)

/-- Association-list lookup. -/
def assocGet {α : Type} (l : List (String × α)) (k : String) : Option α :=
  match l with
  | [] => none
  | (k1, v) :: t => if k1 = k then some v else assocGet t k

/-- Association-list update or insert. -/
def assocSet {α : Type} (l : List (String × α)) (k : String) (v : α) : List (String × α) :=
  match l with
  | [] => [(k, v)]
  | (k1, v1) :: t => if k1 = k then (k, v) :: t else (k1, v1) :: assocSet t k v

/-- Python dict.get k: the stored value, or None when the key is absent. -/
def dget (d : PyDict) (k : String) : PyVal :=
  (assocGet d k).getD PyVal.vNone

/-- Python dict.get k dflt: the stored value, or dflt when the key is absent. -/
def dgetD (d : PyDict) (k : String) (dflt : PyVal) : PyVal :=
  (assocGet d k).getD dflt

/-- Python truthiness of a PyVal: None, the empty string and 0 are falsy. -/
def truthy : PyVal → Bool
  | PyVal.vNone => false
  | PyVal.vStr s => s != ""
  | PyVal.vInt n => n != 0

/-- Python str() of a PyVal, used when formatting error messages. -/
def pyStr : PyVal → String
  | PyVal.vStr s => s
  | PyVal.vInt n => toString n
  | PyVal.vNone => "None"

/-- Python s.startswith(pre): pre is a character-level prefix of s. -/
def pyStartsWith (s pre : String) : Bool :=
  pre.data.isPrefixOf s.data

/-- Helper for strContains: does sub occur as a contiguous sublist? -/
def listHasSub (sub : List Char) : List Char → Bool
  | [] => sub.isEmpty
  | c :: rest => sub.isPrefixOf (c :: rest) || listHasSub sub rest

/-- Python sub in s for strings: sub occurs as a substring of s. -/
def strContains (s sub : String) : Bool :=
  listHasSub sub.data s.data

/-- Python str.replace on char lists, driven by fuel (fuel at least the
length of the scanned list makes it total in the intended sense): every
non-overlapping occurrence of pat is replaced, scanning left to right; the
empty pattern inserts rep at every boundary, as in Python. -/
def pyReplaceFuel (pat rep : List Char) : Nat → List Char → List Char
  | _, [] => if pat.isEmpty then rep else []
  | 0, s => s
  | Nat.succ fuel, c :: rest =>
    if pat ≠ [] ∧ pat.isPrefixOf (c :: rest) then
      rep ++ pyReplaceFuel pat rep fuel ((c :: rest).drop pat.length)
    else if pat.isEmpty then
      rep ++ c :: pyReplaceFuel pat rep fuel rest
    else
      c :: pyReplaceFuel pat rep fuel rest

/-- Python content.replace(pat, rep). -/
def pyReplace (content pat rep : String) : String :=
  String.mk (pyReplaceFuel pat.data rep.data content.data.length content.data)

/-- Python str.strip(): remove leading and trailing whitespace. -/
def pyStrip (s : String) : String :=
  String.mk (((s.data.dropWhile Char.isWhitespace).reverse.dropWhile Char.isWhitespace).reverse)

/-- Result of one tool invocation as the Python functions return it: a raw
success string, or json.dumps of a single-key error object. -/
inductive ToolResult where
  | ok (s : String)
  | error (msg : String)
  deriving DecidableEq, Repr

/-- The string the Python function actually returns: raw text on success,
a JSON object with an error key on failure. -/
def ToolResult.render : ToolResult → String
  | ToolResult.ok s => s
  | ToolResult.error m => "\x7b\"error\": \"" ++ m ++ "\"\x7d"

/-- Filesystem state seen by the tools.  cwd is the resolved working
directory string str(Path.cwd().resolve()); resolveFn models
Path(s).resolve() for string arguments and may raise; files maps resolved
paths of regular files to their contents; dirs maps resolved paths of
directories to their iterdir entries (name, is-directory flag); ioErr makes
open/iterdir raise on a given resolved path, modelling OS-level errors. -/
structure FS where
  cwd : String
  resolveFn : String → Except String String
  files : List (String × String)
  dirs : List (String × List (String × Bool))
  ioErr : String → Option String

/-- Content of the regular file at a resolved path, if any. -/
def getFile (fs : FS) (p : String) : Option String :=
  assocGet fs.files p

/-- Path(p).is_file(). -/
def isFile (fs : FS) (p : String) : Bool :=
  (getFile fs p).isSome

/-- Path(p).is_dir(). -/
def isDir (fs : FS) (p : String) : Bool :=
  (assocGet fs.dirs p).isSome

/-- Path(p).exists(). -/
def fsExists (fs : FS) (p : String) : Bool :=
  isFile fs p || isDir fs p

/-- State after writing content c to resolved path p. -/
def fsWrite (fs : FS) (p : String) (c : String) : FS :=
  { fs with files := assocSet fs.files p c }

/-- open(p).read(): raises on an ioErr path or a missing file. -/
def fsRead (fs : FS) (p : String) : Except String String :=
  match fs.ioErr p with
  | some e => Except.error e
  | none =>
    match getFile fs p with
    | some c => Except.ok c
    | none => Except.error ("FileNotFoundError: " ++ p)

/-- open(p, w).write(c): raises on an ioErr path, else updates the file. -/
def fsWriteE (fs : FS) (p : String) (c : String) : Except String FS :=
  match fs.ioErr p with
  | some e => Except.error e
  | none => Except.ok (fsWrite fs p c)

/-- Path(p).iterdir(): raises on an ioErr path or a non-directory. -/
def dirEntries (fs : FS) (p : String) : Except String (List (String × Bool)) :=
  match fs.ioErr p with
  | some e => Except.error e
  | none =>
    match assocGet fs.dirs p with
    | some entries => Except.ok entries
    | none => Except.error ("NotADirectoryError: not a directory: " ++ p)

/-- Path(v).resolve() for a tool-input value: constructing Path from a
non-string raises TypeError; for strings the FS resolution function is
consulted and may itself raise (for example ValueError on an embedded null
byte). -/
def pyResolve (fs : FS) (v : PyVal) : Except String String :=
  match v with
  | PyVal.vStr s => fs.resolveFn s
  | _ => Except.error "TypeError: argument should be a str or an os.PathLike object"

/-- Python old_str in content with old_str an arbitrary PyVal: membership
on a string raises TypeError unless the left operand is a string. -/
def pyIn (v : PyVal) (content : String) : Except String Bool :=
  match v with
  | PyVal.vStr s => Except.ok (strContains content s)
  | _ => Except.error "TypeError: in string requires string as left operand"

/-- Claim-side notion (not from the source): the resolved path rp denotes
the working directory itself or a location beneath it.  The source instead
compares raw path strings with startswith. -/
def withinDir (rp cwd : String) : Bool :=
  rp == cwd || pyStartsWith rp (cwd ++ "/")

/-- json.dumps of a list of strings, as returned by list_files_tool. -/
def renderStrList (l : List String) : String :=
  "[" ++ String.intercalate ", " (l.map (fun s => "\"" ++ s ++ "\"")) ++ "]"

/-- Body of the try block of read_file_tool (source lines 48 to 58). -/
def read_file_try (fs : FS) (path_v : PyVal) : Except String ToolResult :=
  match pyResolve fs path_v with
  | Except.error e => Except.error e
  | Except.ok file_path =>
    if pyStartsWith file_path fs.cwd = false then
      Except.ok (ToolResult.error ("Access to path " ++ pyStr path_v ++ " is not allowed. Only paths within the current working directory are permitted."))
    else if isFile fs file_path = false then
      Except.ok (ToolResult.error ("File not found or is not a regular file: " ++ pyStr path_v))
    else
      match fsRead fs file_path with
      | Except.error e => Except.error e
      | Except.ok content => Except.ok (ToolResult.ok content)

/-- read_file_tool (source lines 38 to 60).  The try block surrounds the
whole body after the truthiness check, so every exception is converted to
an error payload. -/
def read_file_tool (fs : FS) (input : PyDict) : Except String ToolResult :=
  let path_v := dget input "path"
  if truthy path_v = false then
    Except.ok (ToolResult.error "Path is required.")
  else
    match read_file_try fs path_v with
    | Except.ok r => Except.ok r
    | Except.error e => Except.ok (ToolResult.error ("Error reading file " ++ pyStr path_v ++ ": " ++ e))

/-- Body of the try block of list_files_tool (source lines 71 to 87). -/
def list_files_try (fs : FS) (path_v : PyVal) : Except String ToolResult :=
  match pyResolve fs path_v with
  | Except.error e => Except.error e
  | Except.ok base_path =>
    if pyStartsWith base_path fs.cwd = false then
      Except.ok (ToolResult.error ("Access to path " ++ pyStr path_v ++ " is not allowed. Only paths within the current working directory are permitted."))
    else if fsExists fs base_path = false then
      Except.ok (ToolResult.error ("Path not found: " ++ pyStr path_v))
    else
      match dirEntries fs base_path with
      | Except.error e => Except.error e
      | Except.ok entries =>
        Except.ok (ToolResult.ok (renderStrList (entries.map (fun it => if it.2 then it.1 ++ "/" else it.1))))

/-- list_files_tool (source lines 62 to 89).  dict.get with default dot;
the try block surrounds resolution and listing. -/
def list_files_tool (fs : FS) (input : PyDict) : Except String ToolResult :=
  let path_v := dgetD input "path" (PyVal.vStr ".")
  match list_files_try fs path_v with
  | Except.ok r => Except.ok r
  | Except.error e => Except.ok (ToolResult.error ("Error listing files in " ++ pyStr path_v ++ ": " ++ e))

/-- _create_new_file (source lines 91 to 103).  It has its own try block
around everything, so it never raises; mkdir of the parent directories is
a no-op on the abstract state because intermediate directory entries are
not observed by any tool. -/
def _create_new_file (fs : FS) (path_v new_v : PyVal) : ToolResult × FS :=
  match pyResolve fs path_v with
  | Except.error e => (ToolResult.error ("Failed to create file " ++ pyStr path_v ++ ": " ++ e), fs)
  | Except.ok p =>
    if pyStartsWith p fs.cwd = false then
      (ToolResult.error ("Access to path " ++ pyStr path_v ++ " is not allowed for creation. Only paths within the current working directory are permitted."), fs)
    else
      match fs.ioErr p with
      | some e => (ToolResult.error ("Failed to create file " ++ pyStr path_v ++ ": " ++ e), fs)
      | none =>
        match new_v with
        | PyVal.vStr c => (ToolResult.ok ("Successfully created file " ++ pyStr path_v), fsWrite fs p c)
        | _ => (ToolResult.error ("Failed to create file " ++ pyStr path_v ++ ": TypeError: write argument must be str"), fs)

/-- Lines 140 to 143 of the source: append when old_str is None or empty,
else str.replace; concatenation and replace raise TypeError on non-string
arguments. -/
def pyNewContent (old_v new_v : PyVal) (content : String) : Except String String :=
  if old_v = PyVal.vNone ∨ old_v = PyVal.vStr "" then
    match new_v with
    | PyVal.vStr n => Except.ok (content ++ n)
    | _ => Except.error "TypeError: can only concatenate str to str"
  else
    match old_v with
    | PyVal.vStr o =>
      match new_v with
      | PyVal.vStr n => Except.ok (pyReplace content o n)
      | _ => Except.error "TypeError: replace argument 2 must be str"
    | _ => Except.error "TypeError: replace argument 1 must be str"

/-- Body of the try block of edit_file_tool (source lines 125 to 147). -/
def edit_try (fs : FS) (path_v old_v new_v : PyVal) (file_path : String) : Except String (ToolResult × FS) :=
  if fsExists fs file_path = false then
    if old_v = PyVal.vStr "" ∨ old_v = PyVal.vNone then
      Except.ok (_create_new_file fs path_v new_v)
    else
      Except.ok (ToolResult.error ("File not found: " ++ pyStr path_v ++ ", and old_str was provided, so not creating a new file."), fs)
  else if isFile fs file_path = false then
    Except.ok (ToolResult.error ("Path exists but is not a file: " ++ pyStr path_v), fs)
  else
    match fsRead fs file_path with
    | Except.error e => Except.error e
    | Except.ok original_content =>
      match pyIn old_v original_content with
      | Except.error e => Except.error e
      | Except.ok occurs =>
        if occurs = false then
          Except.ok (ToolResult.error ("old_str not found in file " ++ pyStr path_v ++ "."), fs)
        else
          match pyNewContent old_v new_v original_content with
          | Except.error e => Except.error e
          | Except.ok modified =>
            match fsWriteE fs file_path modified with
            | Except.error e => Except.error e
            | Except.ok fs1 => Except.ok (ToolResult.ok "OK", fs1)

/-- edit_file_tool (source lines 106 to 149).  The two input checks and the
path resolution with its confinement check come BEFORE the try block, so an
exception raised by Path(path_str).resolve() propagates to the caller;
every exception inside the try block is converted to an error payload. -/
def edit_file_tool (fs : FS) (input : PyDict) : Except String (ToolResult × FS) :=
  let path_v := dget input "path"
  let old_v := dget input "old_str"
  let new_v := dget input "new_str"
  if path_v = PyVal.vNone ∨ new_v = PyVal.vNone then
    Except.ok (ToolResult.error "Invalid input: path and new_str are required.", fs)
  else if old_v ≠ PyVal.vNone ∧ old_v = new_v then
    Except.ok (ToolResult.error "Invalid input: old_str and new_str must be different if old_str is provided.", fs)
  else
    match pyResolve fs path_v with
    | Except.error e => Except.error e
    | Except.ok file_path =>
      if pyStartsWith file_path fs.cwd = false then
        Except.ok (ToolResult.error ("Access to path " ++ pyStr path_v ++ " is not allowed. Only paths within the current working directory are permitted."), fs)
      else
        match edit_try fs path_v old_v new_v file_path with
        | Except.ok r => Except.ok r
        | Except.error e => Except.ok (ToolResult.error ("Error editing file " ++ pyStr path_v ++ ": " ++ e), fs)

/-- Message roles of the conversation. -/
inductive Role where
  | user
  | assistant
  | tool
  deriving DecidableEq, Repr

/-- Arguments attached to a model-issued tool call: a dictionary, or some
other value (the source checks isinstance(tool_arguments, dict)). -/
inductive PyArgs where
  | dict (d : PyDict)
  | nonDict (rep : String)
  deriving DecidableEq, Repr

/-- One tool call requested by the assistant message. -/
structure ToolCall where
  name : String
  args : PyArgs
  deriving DecidableEq, Repr

/-- One turn of the conversation.  tool_calls is empty for user and tool
turns and for assistant turns without tool calls. -/
structure Msg where
  role : Role
  content : String
  tool_calls : List ToolCall
  deriving DecidableEq, Repr

/-- Agent.execute_tool (source lines 238 to 255) with the tool map
registered in the main block: read_file, list_files and edit_file.  The
fallback except clause converts an exception raised by the tool function
into an error payload, so this function is total. -/
def execute_tool (fs : FS) (name : String) (input : PyDict) : ToolResult × FS :=
  if name = "read_file" then
    match read_file_tool fs input with
    | Except.ok r => (r, fs)
    | Except.error e => (ToolResult.error ("Agent failed to execute tool " ++ name ++ ": " ++ e), fs)
  else if name = "list_files" then
    match list_files_tool fs input with
    | Except.ok r => (r, fs)
    | Except.error e => (ToolResult.error ("Agent failed to execute tool " ++ name ++ ": " ++ e), fs)
  else if name = "edit_file" then
    match edit_file_tool fs input with
    | Except.ok (r, fs1) => (r, fs1)
    | Except.error e => (ToolResult.error ("Agent failed to execute tool " ++ name ++ ": " ++ e), fs)
  else
    (ToolResult.error ("Tool " ++ name ++ " not found by agent."), fs)

/-- Content of the tool-result turn appended when the requested arguments
are not a dictionary (source lines 305 to 311). -/
def nonDictContent (name rep : String) : String :=
  "\x7b\"error\": \"Tool arguments for " ++ name ++ " are not in the expected dictionary format.\", \"received_arguments\": \"" ++ rep ++ "\"\x7d"

/-- The for loop over raw_tool_calls (source lines 293 to 326): produces
the tool-result turns in order, the filesystem after all executions, and
the list of actually executed calls (name, argument dictionary, result).
A call whose arguments are not a dictionary gets an error result turn and
is not executed. -/
def processToolCalls (fs : FS) : List ToolCall → List Msg × FS × List (String × PyDict × ToolResult)
  | [] => ([], fs, [])
  | tc :: rest =>
    match tc.args with
    | PyArgs.nonDict rep =>
      let m : Msg := ⟨Role.tool, nonDictContent tc.name rep, []⟩
      let r := processToolCalls fs rest
      (m :: r.1, r.2.1, r.2.2)
    | PyArgs.dict d =>
      let e := execute_tool fs tc.name d
      let m : Msg := ⟨Role.tool, ToolResult.render e.1, []⟩
      let r := processToolCalls e.2 rest
      (m :: r.1, r.2.1, (tc.name, d, e.1) :: r.2.2)

/-- Agent.run_inference (source lines 221 to 236): the oracle is the
outcome of ollama.chat; an exception is caught, an error line is printed
and None is returned. -/
def run_inference (oracle : Except String Msg) : Option Msg × List String :=
  match oracle with
  | Except.error e => (none, ["Ollama API Error: " ++ e])
  | Except.ok m => (some m, [])

/-- Mutable state of the main loop: the conversation list and the
needs_user_input flag. -/
structure LoopState where
  conversation : List Msg
  needsUserInput : Bool
  deriving DecidableEq, Repr

/-- Observable outcome of one pass through the while body of Agent.run:
whether the loop exited, the successor state, the filesystem, the tool
calls actually executed during the pass, and the error lines printed. -/
structure StepOut where
  exited : Bool
  st : LoopState
  fs : FS
  executed : List (String × PyDict × ToolResult)
  logs : List String

/-- Conversation after the user-prompt phase of an iteration: when the
flag asks for input and input is available, the user turn is appended. -/
def convAfterUser (st : LoopState) (userIn : Option String) : List Msg :=
  if st.needsUserInput then
    match userIn with
    | some u => st.conversation ++ [⟨Role.user, u, []⟩]
    | none => st.conversation
  else st.conversation

/-- Inference and tool phase of one iteration (source lines 273 to 331),
starting from the conversation as it stands after the user prompt. -/
def stepCore (fs : FS) (conv : List Msg) (oracle : Except String Msg) : StepOut :=
  match run_inference oracle with
  | (none, logs) => ⟨false, ⟨conv, true⟩, fs, [], logs⟩
  | (some am, logs) =>
    let conv1 := conv ++ [am]
    if am.tool_calls = [] then
      ⟨false, ⟨conv1, true⟩, fs, [], logs⟩
    else
      let r := processToolCalls fs am.tool_calls
      ⟨false, ⟨conv1 ++ r.1, false⟩, r.2.1, r.2.2, logs⟩

/-- One pass through the while body of Agent.run (source lines 263 to
331).  userIn models get_user_message (None on end of input or interrupt);
oracle models the outcome of the ollama.chat call.  A blank user input
leads back to the prompt with nothing changed; end of input exits. -/
def loopStep (fs : FS) (st : LoopState) (userIn : Option String) (oracle : Except String Msg) : StepOut :=
  if st.needsUserInput then
    match userIn with
    | none => ⟨true, st, fs, [], []⟩
    | some u =>
      if pyStrip u = "" then ⟨false, st, fs, [], []⟩
      else stepCore fs (st.conversation ++ [⟨Role.user, u, []⟩]) oracle
  else stepCore fs st.conversation oracle

/-- Observation on an edit_file_tool outcome: the call returned (rather
than raised) an error payload. -/
def isErrorResult : Except String (ToolResult × FS) → Bool
  | Except.ok (ToolResult.error _, _) => true
  | _ => false

/-- Observation on an edit_file_tool outcome: the call returned success
text. -/
def isSuccessResult : Except String (ToolResult × FS) → Bool
  | Except.ok (ToolResult.ok _, _) => true
  | _ => false

/-- Filesystem carried out of an edit_file_tool call, when no exception
escaped. -/
def resultFS : Except String (ToolResult × FS) → Option FS
  | Except.ok (_, fs1) => some fs1
  | Except.error _ => none

/-- Fixture: working directory /a/b with a sibling directory /a/bc2 and a
sibling file /a/bc whose resolved strings begin with the characters of the
working directory string without lying beneath it. -/
def fsSib : FS :=
  ⟨"/a/b",
   fun s => Except.ok (if s = "../bc" then "/a/bc" else if s = "../bc2" then "/a/bc2" else "/a/b/" ++ s),
   [("/a/bc", "top secret")],
   [("/a/bc2", [("x.txt", false)])],
   fun _ => none⟩

/-- Fixture: a working directory /w whose resolution simply prepends the
directory, with one file containing two occurrences of ab. -/
def fsMulti : FS :=
  ⟨"/w", fun s => Except.ok ("/w/" ++ s), [("/w/f.txt", "abab")], [], fun _ => none⟩

/-- Fixture input for fsMulti: replace ab by x in f.txt. -/
def inpMulti : PyDict :=
  [("path", PyVal.vStr "f.txt"), ("old_str", PyVal.vStr "ab"), ("new_str", PyVal.vStr "x")]

/-- Fixture: a plain working directory /w with no files. -/
def fsPlain : FS :=
  ⟨"/w", fun s => Except.ok ("/w/" ++ s), [], [], fun _ => none⟩

/-- Fixture: working directory /w holding one file n.txt with content
hello. -/
def fsApp : FS :=
  ⟨"/w", fun s => Except.ok ("/w/" ++ s), [("/w/n.txt", "hello")], [], fun _ => none⟩

/-- Fixture: working directory /w with no files, for the creation claims. -/
def fsNew : FS :=
  ⟨"/w", fun s => Except.ok ("/w/" ++ s), [], [], fun _ => none⟩

/-- Fixture: a filesystem whose path resolution escapes the working
directory, for the check-ordering claim. -/
def fsEsc : FS :=
  ⟨"/w", fun _ => Except.ok "/etc/passwd", [], [], fun _ => none⟩

/-- Fixture: working directory with one readable file a.txt, used by the
loop witnesses. -/
def fsLoop : FS :=
  ⟨"/w", fun s => Except.ok ("/w/" ++ s), [("/w/a.txt", "alpha")], [], fun _ => none⟩

/-- Fixture assistant message requesting one read_file call. -/
def amLoop : Msg :=
  ⟨Role.assistant, "", [⟨"read_file", PyArgs.dict [("path", PyVal.vStr "a.txt")]⟩]⟩

/-
Helper lemmas.
-/

/-- Characters of an appended string. -/
theorem strData_append (s t : String) : (s ++ t).data = s.data ++ t.data := by
  cases s
  cases t
  rfl

/-- A list is a Boolean prefix of itself followed by anything. -/
theorem isPrefixOf_append_self (l t : List Char) : l.isPrefixOf (l ++ t) = true := by
  induction l with
  | nil =>
    rw [List.nil_append]
    cases t with
    | nil => rfl
    | cons c cs => rfl
  | cons c cs ih =>
    show (c == c && cs.isPrefixOf (cs ++ t)) = true
    simp [ih]

/-- A path of the form cwd, separator, rest satisfies the startswith check
of the source. -/
theorem pyStartsWith_within (a b : String) : pyStartsWith (a ++ "/" ++ b) a = true := by
  unfold pyStartsWith
  rw [strData_append, strData_append, List.append_assoc]
  exact isPrefixOf_append_self a.data _

/-- The empty list occurs in every list. -/
theorem listHasSub_nil (l : List Char) : listHasSub [] l = true := by
  induction l with
  | nil => rfl
  | cons c rest ih => simp [listHasSub, ih, List.isPrefixOf]

/-- Python membership of the empty string is always true. -/
theorem strContains_empty (s : String) : strContains s "" = true := by
  unfold strContains
  exact listHasSub_nil s.data

/-- Lookup after update finds the written value. -/
theorem assocGet_assocSet_self {α : Type} (l : List (String × α)) (k : String) (v : α) :
    assocGet (assocSet l k v) k = some v := by
  induction l with
  | nil => simp [assocGet, assocSet]
  | cons p t ih =>
    obtain ⟨k1, v1⟩ := p
    by_cases h : k1 = k
    · simp [assocSet, assocGet, h]
    · simp [assocSet, assocGet, h, ih]

/-- The tool loop produces exactly one result turn per requested call. -/
theorem processToolCalls_len (fs : FS) (tcs : List ToolCall) :
    (processToolCalls fs tcs).1.length = tcs.length := by
  induction tcs generalizing fs with
  | nil => rfl
  | cons tc rest ih =>
    cases h : tc.args with
    | nonDict rep => simp [processToolCalls, h, ih]
    | dict d => simp [processToolCalls, h, ih]

/-- Every turn produced by the tool loop carries the tool role. -/
theorem processToolCalls_roles (fs : FS) (tcs : List ToolCall) :
    ((processToolCalls fs tcs).1.all fun m => m.role == Role.tool) = true := by
  induction tcs generalizing fs with
  | nil => rfl
  | cons tc rest ih =>
    cases h : tc.args with
    | nonDict rep => simp [processToolCalls, h, ih]
    | dict d => simp [processToolCalls, h, ih]

/-- When every requested call carries dictionary arguments, the executed
calls are exactly the requested ones, in order. -/
theorem processToolCalls_order (fs : FS) (tcs : List ToolCall)
    (hdict : ∀ tc ∈ tcs, ∃ d, tc.args = PyArgs.dict d) :
    (processToolCalls fs tcs).2.2.map (fun x => (x.1, PyArgs.dict x.2.1)) =
      tcs.map (fun tc => (tc.name, tc.args)) := by
  induction tcs generalizing fs with
  | nil => rfl
  | cons tc rest ih =>
    obtain ⟨d, hd⟩ := hdict tc (by simp)
    simp [processToolCalls, hd, ih _ (fun tc2 h2 => hdict tc2 (by simp [h2]))]

/-- The conversation built by stepCore extends its input conversation. -/
theorem stepCore_prefix (fs : FS) (conv : List Msg) (oracle : Except String Msg) :
    conv <+: (stepCore fs conv oracle).st.conversation := by
  unfold stepCore run_inference
  cases oracle with
  | error e => exact List.prefix_refl conv
  | ok am =>
    by_cases h : am.tool_calls = []
    · simp only [h, if_pos rfl]
      exact List.prefix_append conv [am]
    · simp only [if_neg h]
      rw [List.append_assoc]
      exact List.prefix_append conv _

/-- read_file_tool converts every exception raised in its body into an
error payload: its try block surrounds the whole body, so no exception
reaches the caller.  Not tied to a single claim; it complements the result
on edit_file_tool, whose resolution step sits outside its try block. -/
theorem read_file_tool_no_raise (fs : FS) (input : PyDict) :
    ∃ r, read_file_tool fs input = Except.ok r := by
  by_cases h : truthy (dget input "path") = false
  · have he : read_file_tool fs input = Except.ok (ToolResult.error "Path is required.") := by
      simp [read_file_tool, h]
    exact ⟨_, he⟩
  · cases h2 : read_file_try fs (dget input "path") with
    | ok r =>
      have he : read_file_tool fs input = Except.ok r := by
        simp [read_file_tool, h, h2]
      exact ⟨r, he⟩
    | error e =>
      have he : read_file_tool fs input =
          Except.ok (ToolResult.error ("Error reading file " ++ pyStr (dget input "path") ++ ": " ++ e)) := by
        simp [read_file_tool, h, h2]
      exact ⟨_, he⟩

/-- list_files_tool likewise never lets an exception escape. -/
theorem list_files_tool_no_raise (fs : FS) (input : PyDict) :
    ∃ r, list_files_tool fs input = Except.ok r := by
  cases h : list_files_try fs (dgetD input "path" (PyVal.vStr ".")) with
  | ok r =>
    have he : list_files_tool fs input = Except.ok r := by
      simp [list_files_tool, h]
    exact ⟨r, he⟩
  | error e =>
    have he : list_files_tool fs input =
        Except.ok (ToolResult.error ("Error listing files in " ++ pyStr (dgetD input "path" (PyVal.vStr ".")) ++ ": " ++ e)) := by
      simp [list_files_tool, h]
    exact ⟨_, he⟩

/-- C1: the claim says that a path resolving outside the working directory
is always rejected with an access-denied error and no filesystem
operation.  The source instead compares raw resolved path STRINGS with
startswith and no trailing separator, so a sibling of the working
directory whose name extends the working-directory string (here /a/bc and
/a/bc2 beside cwd /a/b, reached by the relative argument ../bc) passes the
check in all three tools: read_file returns the outside file, list_files
lists the outside directory, and edit_file rewrites the outside file. -/
theorem confinement_prefix_hole :
    withinDir "/a/bc" "/a/b" = false ∧
    withinDir "/a/bc2" "/a/b" = false ∧
    read_file_tool fsSib [("path", PyVal.vStr "../bc")] = Except.ok (ToolResult.ok "top secret") ∧
    list_files_tool fsSib [("path", PyVal.vStr "../bc2")] = Except.ok (ToolResult.ok (renderStrList ["x.txt"])) ∧
    edit_file_tool fsSib [("path", PyVal.vStr "../bc"), ("old_str", PyVal.vStr "top"), ("new_str", PyVal.vStr "TOP")] =
      Except.ok (ToolResult.ok "OK", fsWrite fsSib "/a/bc" "TOP secret") :=
  ⟨by decide, by decide, rfl, rfl, rfl⟩

/-- C3: the claim says no tool function ever raises to its caller.  In
edit_file_tool the Path(path_str).resolve() call at line 121 is placed
BEFORE the try block, so an exception it raises (here the TypeError from
constructing Path out of a non-string value) propagates to the caller
instead of being converted into an error payload. -/
theorem edit_file_raises_on_nonstring_path :
    edit_file_tool fsPlain [("path", PyVal.vInt 5), ("new_str", PyVal.vStr "x")] =
      Except.error "TypeError: argument should be a str or an os.PathLike object" :=
  rfl

/-- C4: whenever old_str is provided (not None) and equals new_str, the
tool returns an error payload and the filesystem is unchanged, for every
filesystem and every input dictionary with these fields. -/
theorem edit_old_eq_new_errors (fs : FS) (input : PyDict) (v : PyVal)
    (hold : dget input "old_str" = v) (hv : v ≠ PyVal.vNone)
    (hnew : dget input "new_str" = v) :
    isErrorResult (edit_file_tool fs input) = true ∧
    resultFS (edit_file_tool fs input) = some fs := by
  by_cases hp : dget input "path" = PyVal.vNone
  · constructor
    · simp [edit_file_tool, hp, hold, hnew, hv, isErrorResult]
    · simp [edit_file_tool, hp, hold, hnew, hv, resultFS]
  · constructor
    · simp [edit_file_tool, hp, hold, hnew, hv, isErrorResult]
    · simp [edit_file_tool, hp, hold, hnew, hv, resultFS]

/-- C4 witness: a concrete call with equal old_str and new_str. -/
theorem edit_old_eq_new_errors_w :
    isErrorResult (edit_file_tool fsPlain [("path", PyVal.vStr "f"), ("old_str", PyVal.vStr "a"), ("new_str", PyVal.vStr "a")]) = true ∧
    resultFS (edit_file_tool fsPlain [("path", PyVal.vStr "f"), ("old_str", PyVal.vStr "a"), ("new_str", PyVal.vStr "a")]) = some fsPlain :=
  edit_old_eq_new_errors fsPlain
    [("path", PyVal.vStr "f"), ("old_str", PyVal.vStr "a"), ("new_str", PyVal.vStr "a")]
    (PyVal.vStr "a") rfl (by decide) rfl

/-- C10: the old-equals-new check at line 118 precedes path resolution and
the confinement check at lines 121 to 123, so every call with a provided
old_str equal to new_str (and some path value present) gets the
must-be-different error and leaves the filesystem unchanged, whatever the
path would resolve to — even a location outside the working directory. -/
theorem edit_checks_old_eq_new_before_path (fs : FS) (input : PyDict) (v : PyVal)
    (hpath : dget input "path" ≠ PyVal.vNone)
    (hold : dget input "old_str" = v) (hv : v ≠ PyVal.vNone)
    (hnew : dget input "new_str" = v) :
    edit_file_tool fs input =
      Except.ok (ToolResult.error "Invalid input: old_str and new_str must be different if old_str is provided.", fs) := by
  simp [edit_file_tool, hpath, hold, hnew, hv]

/-- C10 witness: the filesystem fsEsc resolves every path to /etc/passwd,
outside the working directory /w, yet the call still gets the
must-be-different error rather than access denied. -/
theorem edit_checks_old_eq_new_before_path_w :
    withinDir "/etc/passwd" "/w" = false ∧
    fsEsc.resolveFn "cfg" = Except.ok "/etc/passwd" ∧
    edit_file_tool fsEsc [("path", PyVal.vStr "cfg"), ("old_str", PyVal.vStr "s"), ("new_str", PyVal.vStr "s")] =
      Except.ok (ToolResult.error "Invalid input: old_str and new_str must be different if old_str is provided.", fsEsc) :=
  ⟨by decide, rfl,
   edit_checks_old_eq_new_before_path fsEsc
     [("path", PyVal.vStr "cfg"), ("old_str", PyVal.vStr "s"), ("new_str", PyVal.vStr "s")]
     (PyVal.vStr "s") (by decide) rfl (by decide) rfl⟩

/-- C2 counterexample: the file content abab holds two occurrences of the
old text ab; a single replacement by x would give xab or abx, but the tool
writes xx (Python str.replace replaces every occurrence) while reporting
success. -/
theorem edit_single_replacement_refuted :
    edit_file_tool fsMulti inpMulti = Except.ok (ToolResult.ok "OK", fsWrite fsMulti "/w/f.txt" "xx") ∧
    getFile (fsWrite fsMulti "/w/f.txt" "xx") "/w/f.txt" = some "xx" ∧
    ("xx" : String) ≠ "xab" ∧ ("xx" : String) ≠ "abx" :=
  ⟨rfl, rfl, by decide, by decide⟩

/-- C2 (amended): on an existing regular file within the working
directory, with old_str non-empty, occurring in the file and different
from new_str, the tool replaces EVERY non-overlapping occurrence of
old_str by new_str, scanning left to right, and reports success. -/
theorem edit_replaces_every_occurrence (fs : FS) (input : PyDict)
    (p o n rp tail orig : String)
    (hpath : dget input "path" = PyVal.vStr p)
    (hold : dget input "old_str" = PyVal.vStr o)
    (hnew : dget input "new_str" = PyVal.vStr n)
    (hone : o ≠ "") (hdiff : o ≠ n)
    (hres : fs.resolveFn p = Except.ok rp)
    (hin : rp = fs.cwd ++ "/" ++ tail)
    (horig : getFile fs rp = some orig)
    (hocc : strContains orig o = true)
    (hio : fs.ioErr rp = none) :
    edit_file_tool fs input = Except.ok (ToolResult.ok "OK", fsWrite fs rp (pyReplace orig o n)) := by
  subst hin
  simp [edit_file_tool, hpath, hold, hnew, hdiff, pyResolve, hres, pyStartsWith_within,
        edit_try, fsExists, isFile, horig, fsRead, hio, pyIn, hocc, pyNewContent, hone, fsWriteE]

/-- C2 witness: the amended statement applied to the two-occurrence
fixture. -/
theorem edit_replaces_every_occurrence_w :
    edit_file_tool fsMulti inpMulti =
      Except.ok (ToolResult.ok "OK", fsWrite fsMulti "/w/f.txt" (pyReplace "abab" "ab" "x")) :=
  edit_replaces_every_occurrence fsMulti inpMulti "f.txt" "ab" "x" "/w/f.txt" "f.txt" "abab"
    rfl rfl rfl (by decide) (by decide) rfl rfl rfl (by decide) rfl

/-- C5 counterexample: appending the empty new_str to an existing file is
claimed to succeed, but old_str equal to new_str (both empty) trips the
must-be-different check, so the tool reports an error, not success. -/
theorem edit_append_empty_new_refuted :
    isSuccessResult (edit_file_tool fsApp [("path", PyVal.vStr "n.txt"), ("old_str", PyVal.vStr ""), ("new_str", PyVal.vStr "")]) = false ∧
    edit_file_tool fsApp [("path", PyVal.vStr "n.txt"), ("old_str", PyVal.vStr ""), ("new_str", PyVal.vStr "")] =
      Except.ok (ToolResult.error "Invalid input: old_str and new_str must be different if old_str is provided.", fsApp) :=
  ⟨rfl, rfl⟩

/-- C5 (amended): on an existing regular file within the working
directory, with old_str the empty string and new_str a NON-EMPTY string,
the tool appends new_str to the original content and reports success. -/
theorem edit_appends_on_existing (fs : FS) (input : PyDict)
    (p n rp tail orig : String)
    (hpath : dget input "path" = PyVal.vStr p)
    (hold : dget input "old_str" = PyVal.vStr "")
    (hnew : dget input "new_str" = PyVal.vStr n)
    (hn : n ≠ "")
    (hres : fs.resolveFn p = Except.ok rp)
    (hin : rp = fs.cwd ++ "/" ++ tail)
    (horig : getFile fs rp = some orig)
    (hio : fs.ioErr rp = none) :
    edit_file_tool fs input = Except.ok (ToolResult.ok "OK", fsWrite fs rp (orig ++ n)) := by
  have hn2 : ("" : String) ≠ n := fun h => hn h.symm
  subst hin
  simp [edit_file_tool, hpath, hold, hnew, hn2, pyResolve, hres, pyStartsWith_within,
        edit_try, fsExists, isFile, horig, fsRead, hio, pyIn, strContains_empty, pyNewContent, fsWriteE]

/-- C5 witness: appending a non-empty string to the fixture file. -/
theorem edit_appends_on_existing_w :
    edit_file_tool fsApp [("path", PyVal.vStr "n.txt"), ("old_str", PyVal.vStr ""), ("new_str", PyVal.vStr " world")] =
      Except.ok (ToolResult.ok "OK", fsWrite fsApp "/w/n.txt" ("hello" ++ " world")) :=
  edit_appends_on_existing fsApp
    [("path", PyVal.vStr "n.txt"), ("old_str", PyVal.vStr ""), ("new_str", PyVal.vStr " world")]
    "n.txt" " world" "/w/n.txt" "n.txt" "hello" rfl rfl rfl (by decide) rfl rfl rfl rfl

/-- C6 counterexample: creating a file with empty new_str content is
claimed to succeed, but old_str equal to new_str (both empty) trips the
must-be-different check first, so nothing is created and an error is
returned. -/
theorem edit_create_empty_new_refuted :
    isSuccessResult (edit_file_tool fsNew [("path", PyVal.vStr "g.txt"), ("old_str", PyVal.vStr ""), ("new_str", PyVal.vStr "")]) = false ∧
    edit_file_tool fsNew [("path", PyVal.vStr "g.txt"), ("old_str", PyVal.vStr ""), ("new_str", PyVal.vStr "")] =
      Except.ok (ToolResult.error "Invalid input: old_str and new_str must be different if old_str is provided.", fsNew) ∧
    getFile fsNew "/w/g.txt" = none :=
  ⟨rfl, rfl, rfl⟩

/-- C6 (amended): when the named path is within the working directory, the
file does not exist, old_str is the empty string and new_str is NON-EMPTY,
the tool creates the file with new_str as its entire content and reports
success. -/
theorem edit_creates_missing_file (fs : FS) (input : PyDict)
    (p n rp tail : String)
    (hpath : dget input "path" = PyVal.vStr p)
    (hold : dget input "old_str" = PyVal.vStr "")
    (hnew : dget input "new_str" = PyVal.vStr n)
    (hn : n ≠ "")
    (hres : fs.resolveFn p = Except.ok rp)
    (hin : rp = fs.cwd ++ "/" ++ tail)
    (hmiss : fsExists fs rp = false)
    (hio : fs.ioErr rp = none) :
    edit_file_tool fs input =
      Except.ok (ToolResult.ok ("Successfully created file " ++ p), fsWrite fs rp n) ∧
    getFile (fsWrite fs rp n) rp = some n := by
  have hn2 : ("" : String) ≠ n := fun h => hn h.symm
  subst hin
  constructor
  · simp [edit_file_tool, hpath, hold, hnew, hn2, pyResolve, hres, pyStartsWith_within,
          edit_try, hmiss, _create_new_file, hio, pyStr]
  · exact assocGet_assocSet_self fs.files (fs.cwd ++ "/" ++ tail) n

/-- C6 witness: creating h.txt with content data. -/
theorem edit_creates_missing_file_w :
    edit_file_tool fsNew [("path", PyVal.vStr "h.txt"), ("old_str", PyVal.vStr ""), ("new_str", PyVal.vStr "data")] =
      Except.ok (ToolResult.ok ("Successfully created file " ++ "h.txt"), fsWrite fsNew "/w/h.txt" "data") ∧
    getFile (fsWrite fsNew "/w/h.txt" "data") "/w/h.txt" = some "data" :=
  edit_creates_missing_file fsNew
    [("path", PyVal.vStr "h.txt"), ("old_str", PyVal.vStr ""), ("new_str", PyVal.vStr "data")]
    "h.txt" "data" "/w/h.txt" "h.txt" rfl rfl rfl (by decide) rfl rfl rfl rfl

/-- C7: whenever the inference call fails in an iteration that reached it,
the failure is logged, no tool is executed, the filesystem is untouched,
nothing beyond the pending user turn is appended to the conversation (an
empty turn), and the needs-input flag is set so control returns to the
user prompt. -/
theorem inference_failure_empty_turn (fs : FS) (st : LoopState) (userIn : Option String) (e : String)
    (hreach : st.needsUserInput = false ∨ ∃ u, userIn = some u ∧ pyStrip u ≠ "") :
    loopStep fs st userIn (Except.error e) =
      ⟨false, ⟨convAfterUser st userIn, true⟩, fs, [], ["Ollama API Error: " ++ e]⟩ := by
  rcases hreach with h | ⟨u, hu, hblank⟩
  · simp [loopStep, h, convAfterUser, stepCore, run_inference]
  · subst hu
    by_cases h : st.needsUserInput
    · simp [loopStep, h, hblank, convAfterUser, stepCore, run_inference]
    · simp [loopStep, h, convAfterUser, stepCore, run_inference]

/-- C7 witness: a failing inference call right after a non-blank user
turn. -/
theorem inference_failure_empty_turn_w :
    pyStrip "hi" ≠ "" ∧
    loopStep fsLoop ⟨[], true⟩ (some "hi") (Except.error "boom") =
      ⟨false, ⟨convAfterUser ⟨[], true⟩ (some "hi"), true⟩, fsLoop, [], ["Ollama API Error: " ++ "boom"]⟩ :=
  ⟨by decide,
   inference_failure_empty_turn fsLoop ⟨[], true⟩ (some "hi") "boom" (Or.inr ⟨"hi", rfl, by decide⟩)⟩

/-- C8: when the assistant message carries tool calls (with dictionary
arguments, as the inference backend delivers them), the loop executes each
requested tool in the order given, appends exactly one tool-role result
turn per request after the assistant turn, and clears the needs-input flag
so the model is re-invoked without prompting the user; the flag is set
again exactly when the tool-call list is empty. -/
theorem tool_calls_processed_in_order (fs : FS) (st : LoopState) (userIn : Option String) (am : Msg)
    (hreach : st.needsUserInput = false ∨ ∃ u, userIn = some u ∧ pyStrip u ≠ "")
    (hdict : ∀ tc ∈ am.tool_calls, ∃ d, tc.args = PyArgs.dict d) :
    (loopStep fs st userIn (Except.ok am)).exited = false ∧
    (loopStep fs st userIn (Except.ok am)).st.needsUserInput = am.tool_calls.isEmpty ∧
    (loopStep fs st userIn (Except.ok am)).st.conversation =
      convAfterUser st userIn ++ [am] ++ (processToolCalls fs am.tool_calls).1 ∧
    (processToolCalls fs am.tool_calls).1.length = am.tool_calls.length ∧
    ((processToolCalls fs am.tool_calls).1.all fun m => m.role == Role.tool) = true ∧
    (loopStep fs st userIn (Except.ok am)).executed.map (fun x => (x.1, PyArgs.dict x.2.1)) =
      am.tool_calls.map (fun tc => (tc.name, tc.args)) := by
  have hstep : loopStep fs st userIn (Except.ok am) = stepCore fs (convAfterUser st userIn) (Except.ok am) := by
    rcases hreach with h | ⟨u, hu, hblank⟩
    · simp [loopStep, h, convAfterUser]
    · subst hu
      by_cases h : st.needsUserInput
      · simp [loopStep, h, hblank, convAfterUser]
      · simp [loopStep, h, convAfterUser]
  rw [hstep]
  refine ⟨?_, ?_, ?_, processToolCalls_len fs am.tool_calls, processToolCalls_roles fs am.tool_calls, ?_⟩
  · rcases htc : am.tool_calls with _ | ⟨tc, rest⟩ <;> simp [stepCore, run_inference, htc]
  · rcases htc : am.tool_calls with _ | ⟨tc, rest⟩ <;> simp [stepCore, run_inference, htc]
  · rcases htc : am.tool_calls with _ | ⟨tc, rest⟩
    · simp [stepCore, run_inference, htc, processToolCalls]
    · simp [stepCore, run_inference, htc, List.append_assoc]
  · rcases htc : am.tool_calls with _ | ⟨tc, rest⟩
    · simp [stepCore, run_inference, htc, processToolCalls]
    · have horder := processToolCalls_order fs am.tool_calls hdict
      rw [htc] at horder
      simp [stepCore, run_inference, htc, horder]

/-- C8 witness: an assistant message requesting one read_file call during
a tool-processing iteration. -/
theorem tool_calls_processed_in_order_w :
    (loopStep fsLoop ⟨[], false⟩ none (Except.ok amLoop)).exited = false ∧
    (loopStep fsLoop ⟨[], false⟩ none (Except.ok amLoop)).st.needsUserInput = amLoop.tool_calls.isEmpty ∧
    (loopStep fsLoop ⟨[], false⟩ none (Except.ok amLoop)).st.conversation =
      convAfterUser ⟨[], false⟩ none ++ [amLoop] ++ (processToolCalls fsLoop amLoop.tool_calls).1 ∧
    (processToolCalls fsLoop amLoop.tool_calls).1.length = amLoop.tool_calls.length ∧
    ((processToolCalls fsLoop amLoop.tool_calls).1.all fun m => m.role == Role.tool) = true ∧
    (loopStep fsLoop ⟨[], false⟩ none (Except.ok amLoop)).executed.map (fun x => (x.1, PyArgs.dict x.2.1)) =
      amLoop.tool_calls.map (fun tc => (tc.name, tc.args)) :=
  tool_calls_processed_in_order fsLoop ⟨[], false⟩ none amLoop (Or.inl rfl)
    (fun tc htc => by
      simp only [amLoop] at htc
      simp only [List.mem_singleton] at htc
      subst htc
      exact ⟨[("path", PyVal.vStr "a.txt")], rfl⟩)

/-- C9: each pass of the loop body only ever appends to the conversation:
the previous conversation is a prefix of the successor conversation, for
every input, inference outcome and filesystem. -/
theorem conversation_append_only (fs : FS) (st : LoopState) (userIn : Option String) (oracle : Except String Msg) :
    st.conversation <+: (loopStep fs st userIn oracle).st.conversation := by
  by_cases h : st.needsUserInput
  · cases userIn with
    | none =>
      simp only [loopStep, h, if_pos]
      exact List.prefix_refl _
    | some u =>
      by_cases hb : pyStrip u = ""
      · simp only [loopStep, h, if_pos, hb, if_pos rfl]
        exact List.prefix_refl _
      · have h1 : st.conversation <+: st.conversation ++ [⟨Role.user, u, []⟩] :=
          List.prefix_append _ _
        have h2 := stepCore_prefix fs (st.conversation ++ [⟨Role.user, u, []⟩]) oracle
        simp only [loopStep, h, if_pos, hb, if_neg]
        simpa using h1.trans h2
  · have h2 := stepCore_prefix fs st.conversation oracle
    simp only [Bool.not_eq_true] at h
    simpa [loopStep, h] using h2

end OllamaAgent
